import Mathlib

/-
Shallow embedding of the Availability Computation Engine of
`data_availability_dashboard.py` (lines 69-163).

Modelling conventions:
- A pandas cell that may be NaN/null is `Option String`; `none` is null.
- `Value` cells only matter through null-ness, so they are `Option String` too.
- `float('inf')` as a required-years threshold is `Option Nat` with `none`
  standing for the unbounded sentinel (`x >= inf` is false for every count).
- pandas `Series.unique()` keeps first-appearance order and lists NaN once.
- pandas `==` comparison against a scalar is false whenever either side is NaN.
- `astype(str)` renders NaN as the string "nan".
- `DataFrame.groupby(cols)` uses its defaults: `dropna=True` (rows with a null
  in any grouping column are dropped) and `sort=True` (groups are emitted in
  ascending lexicographic order of their key tuples).
- `set_index(col)[val].to_dict()` never rejects duplicate keys; the last
  occurrence wins.
-/

namespace DataAvailability

/-- The fixed disaggregation column names of source line 74:
`['Age', 'group', 'Area', 'Sex', 'Nationality']`. -/
inductive DimName where
  | Age
  | Group
  | Area
  | Sex
  | Nationality
deriving DecidableEq

/-- Source line 74: the ordered list of disaggregation columns. -/
def disaggregation_cols : List DimName :=
  [DimName.Age, DimName.Group, DimName.Area, DimName.Sex, DimName.Nationality]

/-- One observation row of the data sheet. `none` models a null cell. -/
structure Record where
  indicator : Option String
  value : Option String
  age : Option String
  group : Option String
  area : Option String
  sex : Option String
  nationality : Option String
deriving DecidableEq

/-- Cell of record `r` in disaggregation column `c`. -/
def Record.dim (r : Record) : DimName → Option String
  | DimName.Age => r.age
  | DimName.Group => r.group
  | DimName.Area => r.area
  | DimName.Sex => r.sex
  | DimName.Nationality => r.nationality

/-- pandas `astype(str)` on a nullable cell: NaN prints as "nan". -/
def astypeStr : Option String → String
  | none => "nan"
  | some s => s

/-- pandas scalar equality `df['Indicator'] == name`: NaN compares unequal
to everything, including NaN. -/
def pandas_eq : Option String → Option String → Bool
  | some a, some b => decide (a = b)
  | _, _ => false

/-- Source line 92: `df_indicator = df[df['Indicator'] == indicator_name]`. -/
def df_indicator (records : List Record) (name : Option String) : List Record :=
  records.filter (fun r => pandas_eq r.indicator name)

/-- First-appearance deduplication, as pandas `Series.unique()` does. -/
def dedupFirst {α : Type} [DecidableEq α] : List α → List α
  | [] => []
  | x :: xs => x :: (dedupFirst xs).filter (fun y => decide (y ≠ x))

/-- Source line 87: `unique_indicators = df['Indicator'].unique()`. -/
def unique_indicators (records : List Record) : List (Option String) :=
  dedupFirst (records.map Record.indicator)

/-- Source line 98, the per-column activity test:
`df_indicator[col].notna().any() and (df_indicator[col].astype(str) != 'Not applicable').any()`.
Note the two `any()` calls quantify over the column independently. -/
def colHasValidData (recs : List Record) (c : DimName) : Bool :=
  (recs.any (fun r => (r.dim c).isSome)) &&
    (recs.any (fun r => decide (astypeStr (r.dim c) ≠ "Not applicable")))

/-- Source lines 95-99: the disaggregation columns kept for grouping. -/
def valid_disaggregation_cols (recs : List Record) : List DimName :=
  disaggregation_cols.filter (fun c => colHasValidData recs c)

/-- A record is complete on the grouping columns when none of them is null.
pandas `groupby` (default `dropna=True`) keeps exactly these rows. -/
def completeOn (vcols : List DimName) (r : Record) : Bool :=
  vcols.all (fun c => (r.dim c).isSome)

/-- The rows of `recs` that survive `groupby` null-dropping on `vcols`. -/
def completeRows (vcols : List DimName) (recs : List Record) : List Record :=
  recs.filter (fun r => completeOn vcols r)

/-- The grouping key of a record: its tuple of values on the grouping
columns (beyond the constant Indicator column). -/
def rowKeyStr (vcols : List DimName) (r : Record) : List String :=
  vcols.map (fun c => astypeStr (r.dim c))

/-- Strict lexicographic order on character lists by code point, the order
Python uses to compare strings. -/
def charListLt : List Char → List Char → Bool
  | [], [] => false
  | [], _ :: _ => true
  | _ :: _, [] => false
  | a :: as, b :: bs =>
    if a.toNat < b.toNat then true
    else if b.toNat < a.toNat then false
    else charListLt as bs

/-- Strict order on strings by code point. -/
def strLtB (a b : String) : Bool := charListLt a.data b.data

/-- Lexicographic order on key tuples, as Python compares tuples of strings. -/
def keyLe : List String → List String → Bool
  | [], _ => true
  | _ :: _, [] => false
  | a :: as, b :: bs => if strLtB a b then true else if strLtB b a then false else keyLe as bs

/-- Insert into a list ahead of the first element not below `x`. -/
def insertLe {α : Type} (le : α → α → Bool) (x : α) : List α → List α
  | [] => [x]
  | y :: ys => if le x y then x :: y :: ys else y :: insertLe le x ys

/-- Insertion sort by a boolean comparison. -/
def sortLe {α : Type} (le : α → α → Bool) : List α → List α
  | [] => []
  | x :: xs => insertLe le x (sortLe le xs)

/-- Source line 104: the distinct group keys produced by
`df_indicator.groupby(grouping_cols)`, in the sorted order `groupby`
emits them (its `sort=True` default). -/
def groupKeys (vcols : List DimName) (recs : List Record) : List (List String) :=
  sortLe keyLe (dedupFirst ((completeRows vcols recs).map (rowKeyStr vcols)))

/-- The member rows of the group with key `k`. -/
def groupRows (vcols : List DimName) (recs : List Record) (k : List String) : List Record :=
  (completeRows vcols recs).filter (fun r => decide (rowKeyStr vcols r = k))

/-- Source line 71: `criteria.set_index('Indicator')['number of years'].to_dict()`
followed by a dict lookup. Duplicate indicators are resolved silently,
the last row winning, exactly as successive dict insertions do. -/
def criteria_dict (criteria : List (String × Nat)) (s : String) : Option Nat :=
  match criteria with
  | [] => none
  | (k, v) :: rest =>
    match criteria_dict rest s with
    | some w => some w
    | none => if k = s then some v else none

/-- Source line 144: `criteria_dict.get(indicator_name, float('inf'))`.
`none` is the `float('inf')` fallback. -/
def required_years (criteria : List (String × Nat)) : Option String → Option Nat
  | some s => criteria_dict criteria s
  | none => none

/-- The comparison `valid_years_count >= required_years` with the unbounded
sentinel: no count reaches `float('inf')`. -/
def geInf (count : Nat) : Option Nat → Bool
  | none => false
  | some r => decide (r ≤ count)

/-- Source line 146: the binary availability label. -/
def is_available (count : Nat) (req : Option Nat) : String :=
  if geInf count req then "Available" else "Not Available"

/-- One output row of the result table. `dims` is the association list
`dict(zip(grouping_cols, name))` restricted to disaggregation columns
(source line 139); a column absent from it is rendered with the sentinel. -/
structure ResultRow where
  indicator : Option String
  requiredYears : Option Nat
  validYearsCount : Nat
  availability : String
  dims : List (DimName × String)
deriving DecidableEq

/-- Dict lookup in the group-values association list. -/
def lookupDim : List (DimName × String) → DimName → Option String
  | [], _ => none
  | (d, v) :: rest, c => if d = c then some v else lookupDim rest c

/-- Source line 158: `group_values.get(col, 'N/A (Not Disaggregated)')`. -/
def ResultRow.dimVal (row : ResultRow) (c : DimName) : String :=
  (lookupDim row.dims c).getD "N/A (Not Disaggregated)"

/-- Source lines 142-160: the result row built for one group. -/
def result_row (criteria : List (String × Nat)) (name : Option String)
    (vcols : List DimName) (key : List String) (grp : List Record) : ResultRow :=
  let valid_years_count := grp.countP (fun r => r.value.isSome)
  let req := required_years criteria name
  { indicator := name
    requiredYears := req
    validYearsCount := valid_years_count
    availability := is_available valid_years_count req
    dims := vcols.zip key }

/-- Source lines 90-160, one iteration of the outer loop: all result rows
emitted for one indicator name. -/
def indicatorRows (criteria : List (String × Nat)) (records : List Record)
    (name : Option String) : List ResultRow :=
  let recs := df_indicator records name
  let vcols := valid_disaggregation_cols recs
  (groupKeys vcols recs).map
    (fun key => result_row criteria name vcols key (groupRows vcols recs key))

/-- Source lines 85-160: the full result table `availability_results`. -/
def availability_results (criteria : List (String × Nat)) (records : List Record) :
    List ResultRow :=
  (unique_indicators records).flatMap (indicatorRows criteria records)

/-- The activity rule as the specification words it (section 4.2): a single
record must have a value that is simultaneously non-null and, as text, not
equal to "Not applicable". Stated for comparison with `colHasValidData`. -/
def spec_dimension_active (recs : List Record) (c : DimName) : Bool :=
  recs.any (fun r =>
    match r.dim c with
    | some v => decide (v ≠ "Not applicable")
    | none => false)

/- Helper lemmas about the embedded operations. -/

theorem mem_dedupFirst {α : Type} [DecidableEq α] {l : List α} {a : α} :
    a ∈ dedupFirst l ↔ a ∈ l := by
  induction l with
  | nil => simp [dedupFirst]
  | cons x xs ih =>
    by_cases hax : a = x
    · subst hax
      simp [dedupFirst]
    · simp [dedupFirst, List.mem_filter, ih, hax]

theorem nodup_dedupFirst {α : Type} [DecidableEq α] (l : List α) :
    (dedupFirst l).Nodup := by
  induction l with
  | nil => simp [dedupFirst]
  | cons x xs ih =>
    rw [dedupFirst, List.nodup_cons]
    refine ⟨fun hx => ?_, ih.filter _⟩
    have := (List.mem_filter.mp hx).2
    simp at this

theorem perm_insertLe {α : Type} (le : α → α → Bool) (x : α) (l : List α) :
    (insertLe le x l).Perm (x :: l) := by
  induction l with
  | nil => exact List.Perm.refl _
  | cons y ys ih =>
    by_cases h : le x y = true
    · simp [insertLe, h]
    · simp only [insertLe, h, if_false]
      exact (ih.cons y).trans (List.Perm.swap x y ys)

theorem perm_sortLe {α : Type} (le : α → α → Bool) (l : List α) :
    (sortLe le l).Perm l := by
  induction l with
  | nil => exact List.Perm.refl _
  | cons x xs ih =>
    exact (perm_insertLe le x (sortLe le xs)).trans (ih.cons x)

theorem head?_insertLe {α : Type} (le : α → α → Bool) (x : α) (l : List α) :
    (insertLe le x l).head? = some x ∨ (insertLe le x l).head? = l.head? := by
  cases l with
  | nil => left; rfl
  | cons y ys =>
    by_cases h : le x y = true
    · left; simp [insertLe, h]
    · right; simp [insertLe, h]

theorem chain'_insertLe {α : Type} {le : α → α → Bool}
    (htot : ∀ a b, le a b = true ∨ le b a = true) (x : α) {l : List α}
    (h : List.Chain' (fun a b => le a b = true) l) :
    List.Chain' (fun a b => le a b = true) (insertLe le x l) := by
  induction l with
  | nil => exact List.chain'_singleton x
  | cons y ys ih =>
    by_cases hxy : le x y = true
    · simp only [insertLe, hxy, if_true]
      exact h.cons hxy
    · have hyx : le y x = true := (htot x y).resolve_left hxy
      have hrw : insertLe le x (y :: ys) = y :: insertLe le x ys := by
        simp [insertLe, hxy]
      rw [hrw, List.chain'_cons']
      refine ⟨fun z hz => ?_, ih h.tail⟩
      rcases head?_insertLe le x ys with he | he
      · rw [he] at hz
        simp only [Option.mem_def, Option.some.injEq] at hz
        exact hz ▸ hyx
      · rw [he] at hz
        exact (List.chain'_cons'.mp h).1 z hz

theorem chain'_sortLe {α : Type} {le : α → α → Bool}
    (htot : ∀ a b, le a b = true ∨ le b a = true) (l : List α) :
    List.Chain' (fun a b => le a b = true) (sortLe le l) := by
  induction l with
  | nil => exact List.chain'_nil
  | cons x xs ih => exact chain'_insertLe htot x ih

theorem keyLe_total (a b : List String) : keyLe a b = true ∨ keyLe b a = true := by
  induction a generalizing b with
  | nil => left; rfl
  | cons x xs ih =>
    cases b with
    | nil => right; rfl
    | cons y ys =>
      by_cases h1 : strLtB x y = true
      · left; simp [keyLe, h1]
      · by_cases h2 : strLtB y x = true
        · right; simp [keyLe, h2]
        · rcases ih ys with h | h
          · left; simp [keyLe, h1, h2, h]
          · right; simp [keyLe, h1, h2, h]

theorem countP_eq_one_of_nodup_mem {α : Type} [DecidableEq α] {l : List α} {a : α}
    (hn : l.Nodup) (ha : a ∈ l) : l.countP (fun x => decide (x = a)) = 1 := by
  induction l with
  | nil => cases ha
  | cons b bs ih =>
    rw [List.countP_cons]
    by_cases hab : b = a
    · subst hab
      have hb : b ∉ bs := (List.nodup_cons.mp hn).1
      have hz : bs.countP (fun x => decide (x = b)) = 0 := by
        rw [List.countP_eq_zero]
        intro x hx hdec
        exact hb ((of_decide_eq_true hdec) ▸ hx)
      simp [hz]
    · have h : a ∈ bs := by
        rcases List.mem_cons.mp ha with h | h
        · exact absurd h.symm hab
        · exact h
      have := ih (List.nodup_cons.mp hn).2 h
      simp [this, hab]

theorem mem_completeRows {vcols : List DimName} {recs : List Record} {r : Record} :
    r ∈ completeRows vcols recs ↔ r ∈ recs ∧ completeOn vcols r = true := by
  simp [completeRows, List.mem_filter]

theorem mem_groupRows {vcols : List DimName} {recs : List Record} {r : Record}
    {k : List String} :
    r ∈ groupRows vcols recs k ↔ r ∈ completeRows vcols recs ∧ rowKeyStr vcols r = k := by
  simp [groupRows, List.mem_filter]

theorem mem_groupKeys {vcols : List DimName} {recs : List Record} {k : List String} :
    k ∈ groupKeys vcols recs ↔
      ∃ r ∈ completeRows vcols recs, rowKeyStr vcols r = k := by
  rw [groupKeys, (perm_sortLe keyLe _).mem_iff, mem_dedupFirst, List.mem_map]

theorem nodup_groupKeys (vcols : List DimName) (recs : List Record) :
    (groupKeys vcols recs).Nodup :=
  (perm_sortLe keyLe _).nodup_iff.mpr (nodup_dedupFirst _)

theorem length_of_mem_groupKeys {vcols : List DimName} {recs : List Record}
    {k : List String} (h : k ∈ groupKeys vcols recs) : k.length = vcols.length := by
  rcases mem_groupKeys.mp h with ⟨r, _, hk⟩
  rw [← hk, rowKeyStr, List.length_map]

theorem lookupDim_zip_isSome {vcols : List DimName} {key : List String} {c : DimName}
    (hlen : vcols.length = key.length) :
    ((lookupDim (vcols.zip key) c).isSome = true ↔ c ∈ vcols) := by
  induction vcols generalizing key with
  | nil => simp [lookupDim]
  | cons v vs ih =>
    cases key with
    | nil => exact absurd hlen (by simp)
    | cons x xs =>
      by_cases hvc : v = c
      · subst hvc
        simp [List.zip_cons_cons, lookupDim]
      · have hlen' : vs.length = xs.length := by
          simpa using hlen
        have hzip : (v :: vs).zip (x :: xs) = (v, x) :: vs.zip xs := rfl
        have hstep : lookupDim ((v, x) :: vs.zip xs) c = lookupDim (vs.zip xs) c := by
          simp [lookupDim, hvc]
        rw [hzip, hstep, ih hlen']
        simp [Ne.symm hvc]

theorem mem_indicatorRows {criteria : List (String × Nat)} {records : List Record}
    {name : Option String} {row : ResultRow} :
    row ∈ indicatorRows criteria records name ↔
      ∃ k ∈ groupKeys (valid_disaggregation_cols (df_indicator records name))
          (df_indicator records name),
        row = result_row criteria name
          (valid_disaggregation_cols (df_indicator records name)) k
          (groupRows (valid_disaggregation_cols (df_indicator records name))
            (df_indicator records name) k) := by
  simp only [indicatorRows, List.mem_map]
  constructor
  · rintro ⟨k, hk, rfl⟩
    exact ⟨k, hk, rfl⟩
  · rintro ⟨k, hk, rfl⟩
    exact ⟨k, hk, rfl⟩

theorem mem_availability_results {criteria : List (String × Nat)}
    {records : List Record} {row : ResultRow} :
    row ∈ availability_results criteria records ↔
      ∃ name ∈ unique_indicators records, row ∈ indicatorRows criteria records name := by
  simp [availability_results, List.mem_flatMap]

theorem indicatorRows_fields {criteria : List (String × Nat)} {records : List Record}
    {name : Option String} {row : ResultRow}
    (h : row ∈ indicatorRows criteria records name) :
    row.indicator = name ∧
      row.requiredYears = required_years criteria name ∧
      row.availability = is_available row.validYearsCount row.requiredYears := by
  rcases mem_indicatorRows.mp h with ⟨k, _, rfl⟩
  exact ⟨rfl, rfl, rfl⟩

theorem is_available_binary (count : Nat) (req : Option Nat) :
    is_available count req = "Available" ∨ is_available count req = "Not Available" := by
  rw [is_available]
  split
  · left; rfl
  · right; rfl

theorem groupRows_cover {vcols : List DimName} {recs : List Record} {r : Record}
    (hr : r ∈ recs) :
    (completeOn vcols r = true →
      (groupKeys vcols recs).countP
        (fun k => decide (r ∈ groupRows vcols recs k)) = 1) ∧
    (completeOn vcols r = false → ∀ k, r ∉ groupRows vcols recs k) := by
  constructor
  · intro hc
    have hrc : r ∈ completeRows vcols recs := mem_completeRows.mpr ⟨hr, hc⟩
    have hmem : rowKeyStr vcols r ∈ groupKeys vcols recs :=
      mem_groupKeys.mpr ⟨r, hrc, rfl⟩
    have hcongr : (groupKeys vcols recs).countP
          (fun k => decide (r ∈ groupRows vcols recs k)) =
        (groupKeys vcols recs).countP
          (fun k => decide (k = rowKeyStr vcols r)) := by
      apply List.countP_congr
      intro k _
      simp only [decide_eq_true_iff]
      constructor
      · intro hrk
        exact ((mem_groupRows.mp hrk).2).symm
      · rintro rfl
        exact mem_groupRows.mpr ⟨hrc, rfl⟩
    rw [hcongr]
    exact countP_eq_one_of_nodup_mem (nodup_groupKeys vcols recs) hmem
  · intro hnc k hk
    have := (mem_completeRows.mp (mem_groupRows.mp hk).1).2
    rw [hnc] at this
    exact Bool.noConfusion this

/- Sample inputs used by the concrete theorems below. -/

/-- A record that uses only the Indicator, Value and Sex columns. -/
def mkRecord (i : Option String) (v : Option String) (s : Option String) : Record :=
  { indicator := i, value := v, age := none, group := none, area := none,
    sex := s, nationality := none }

/-- Two records of indicator I; the second is null on the active Sex column. -/
def c1SampleRecords : List Record :=
  [mkRecord (some "I") (some "7") (some "Male"),
   mkRecord (some "I") (some "8") none]

/-- Two records of indicator I whose Sex values are exactly null and
the text Not applicable. -/
def c2SampleRecords : List Record :=
  [mkRecord (some "I") (some "1") none,
   mkRecord (some "I") (some "2") (some "Not applicable")]

/- Claim theorems. -/

/-- C1, amended: for every indicator, the emitted partitions are pairwise
disjoint and cover exactly those records of the indicator that are non-null on
every active dimension: each such record belongs to exactly one partition.
A record with a null value on an active dimension belongs to no partition at
all: the grouping (pandas groupby with its default dropna) silently drops it,
so the cover is not total over the full record subset. -/
theorem c1_partition_cover (records : List Record) (name : Option String)
    (r : Record) (hr : r ∈ df_indicator records name) :
    (completeOn (valid_disaggregation_cols (df_indicator records name)) r = true →
      (groupKeys (valid_disaggregation_cols (df_indicator records name))
          (df_indicator records name)).countP
        (fun k => decide (r ∈ groupRows
          (valid_disaggregation_cols (df_indicator records name))
          (df_indicator records name) k)) = 1) ∧
    (completeOn (valid_disaggregation_cols (df_indicator records name)) r = false →
      ∀ k, r ∉ groupRows (valid_disaggregation_cols (df_indicator records name))
        (df_indicator records name) k) :=
  groupRows_cover hr

/-- Witness for C1: on a concrete input, the complete record of indicator I
belongs to exactly one partition. -/
theorem c1_partition_cover_witness :
    (mkRecord (some "I") (some "7") (some "Male") ∈
      df_indicator c1SampleRecords (some "I")) ∧
    (groupKeys (valid_disaggregation_cols (df_indicator c1SampleRecords (some "I")))
        (df_indicator c1SampleRecords (some "I"))).countP
      (fun k => decide (mkRecord (some "I") (some "7") (some "Male") ∈
        groupRows (valid_disaggregation_cols (df_indicator c1SampleRecords (some "I")))
          (df_indicator c1SampleRecords (some "I")) k)) = 1 :=
  ⟨by decide,
   (c1_partition_cover c1SampleRecords (some "I") _ (by decide)).1 (by decide)⟩

/-- Counterexample to C1 as stated: the second record of indicator I is null on
Sex, Sex is active for I, and the record belongs to no partition of I, so the
partitions do not cover the full record subset and the record is silently
skipped rather than grouped under a null category. -/
theorem c1_null_record_dropped :
    (mkRecord (some "I") (some "8") none ∈ df_indicator c1SampleRecords (some "I")) ∧
    DimName.Sex ∈ valid_disaggregation_cols (df_indicator c1SampleRecords (some "I")) ∧
    ∀ k ∈ groupKeys (valid_disaggregation_cols (df_indicator c1SampleRecords (some "I")))
        (df_indicator c1SampleRecords (some "I")),
      mkRecord (some "I") (some "8") none ∉
        groupRows (valid_disaggregation_cols (df_indicator c1SampleRecords (some "I")))
          (df_indicator c1SampleRecords (some "I")) k := by decide

/-- C2: on records whose Sex values are exactly a null and the text
Not applicable, the code of line 98 classifies Sex as active (its two any
calls quantify independently), while the rule of the claim, of the
specification and of the code comment at line 97, which requires one
record that is simultaneously non-null and not Not applicable, classifies
it inactive. The code contradicts its own documentation. -/
theorem c2_activity_divergence :
    colHasValidData c2SampleRecords DimName.Sex = true ∧
    spec_dimension_active c2SampleRecords DimName.Sex = false ∧
    valid_disaggregation_cols c2SampleRecords = [DimName.Sex] := by decide

/-- C3: an indicator present in the observations but absent from the criteria
table yields only rows whose required years is the unbounded sentinel and
whose Availability is Not Available, whatever the observation counts are; the
lookup with its infinite default never fails. -/
theorem c3_missing_criteria_not_available (criteria : List (String × Nat))
    (records : List Record) (row : ResultRow) (s : String)
    (hrow : row ∈ availability_results criteria records)
    (hind : row.indicator = some s)
    (habs : criteria_dict criteria s = none) :
    row.requiredYears = none ∧ row.availability = "Not Available" := by
  rcases mem_availability_results.mp hrow with ⟨name, _, hmem⟩
  rcases indicatorRows_fields hmem with ⟨hname, hreq, hav⟩
  have hns : name = some s := by
    rw [← hname]
    exact hind
  subst hns
  have hreqn : row.requiredYears = none := by
    rw [hreq]
    simpa [required_years] using habs
  refine ⟨hreqn, ?_⟩
  rw [hav, hreqn]
  rfl

/-- Witness for C3: concrete indicator M with one valid observation and an
empty criteria table is classified Not Available with the unbounded
sentinel. -/
theorem c3_missing_criteria_witness :
    ({ indicator := some "M", requiredYears := none, validYearsCount := 1,
       availability := "Not Available", dims := [] } : ResultRow) ∈
        availability_results [] [mkRecord (some "M") (some "1") none] ∧
    ({ indicator := some "M", requiredYears := none, validYearsCount := 1,
       availability := "Not Available", dims := [] } : ResultRow).requiredYears = none ∧
    ({ indicator := some "M", requiredYears := none, validYearsCount := 1,
       availability := "Not Available", dims := [] } : ResultRow).availability =
      "Not Available" :=
  ⟨by decide,
   c3_missing_criteria_not_available [] [mkRecord (some "M") (some "1") none] _ "M"
     (by decide) (by decide) (by decide)⟩

/-- C5, amended: construction of the Criteria Index never rejects a duplicate
Indicator; the duplicate is resolved silently, the threshold of the last
occurrence winning, exactly as successive dict insertions behave. -/
theorem c5_last_write_wins (l : List (String × Nat)) (s : String) (v : Nat) :
    criteria_dict (l ++ [(s, v)]) s = some v := by
  induction l with
  | nil => simp [criteria_dict]
  | cons p l ih =>
    obtain ⟨k, w⟩ := p
    simp [criteria_dict, ih]

/-- Counterexample to C5 as stated: a criteria table listing Indicator A twice
is not rejected; the index is built and silently resolves A to the last
value 5, so no fail-fast behaviour exists. -/
theorem c5_duplicate_not_rejected :
    criteria_dict [("A", 3), ("A", 5)] "A" = some 5 ∧
    criteria_dict [("A", 3), ("A", 5)] "B" = none := by decide

/-- C4: every emitted row of an indicator counts as ValidYearsCount exactly
the records of its partition whose Value is non-null (validity is null-ness
only, a present non-numeric Value counts), is labelled Available exactly when
that count reaches the required threshold, and always carries one of the two
labels. -/
theorem c4_classifier (criteria : List (String × Nat)) (records : List Record)
    (name : Option String) (row : ResultRow)
    (h : row ∈ indicatorRows criteria records name) :
    ∃ k ∈ groupKeys (valid_disaggregation_cols (df_indicator records name))
        (df_indicator records name),
      row.validYearsCount =
        (groupRows (valid_disaggregation_cols (df_indicator records name))
          (df_indicator records name) k).countP (fun rec => rec.value.isSome) ∧
      row.availability =
        (if geInf row.validYearsCount row.requiredYears then "Available"
         else "Not Available") ∧
      (row.availability = "Available" ∨ row.availability = "Not Available") := by
  rcases mem_indicatorRows.mp h with ⟨k, hk, rfl⟩
  exact ⟨k, hk, rfl, rfl, is_available_binary _ _⟩

/-- The single-record observation list used by the C4 and C7 witnesses. -/
def maleSampleRecords : List Record :=
  [mkRecord (some "I") (some "7") (some "Male")]

/-- The row the engine emits for `maleSampleRecords` under threshold 1. -/
def maleSampleRow : ResultRow :=
  { indicator := some "I", requiredYears := some 1, validYearsCount := 1,
    availability := "Available", dims := [(DimName.Sex, "Male")] }

/-- Witness for C4: on a concrete one-record indicator with threshold 1, the
emitted row counts one valid year and is Available. -/
theorem c4_classifier_witness :
    maleSampleRow ∈
      indicatorRows [("I", 1)] maleSampleRecords (some "I") ∧
    ∃ k ∈ groupKeys
        (valid_disaggregation_cols (df_indicator maleSampleRecords (some "I")))
        (df_indicator maleSampleRecords (some "I")),
      maleSampleRow.validYearsCount =
        (groupRows (valid_disaggregation_cols
            (df_indicator maleSampleRecords (some "I")))
          (df_indicator maleSampleRecords (some "I"))
          k).countP (fun rec => rec.value.isSome) ∧
      maleSampleRow.availability =
        (if geInf maleSampleRow.validYearsCount maleSampleRow.requiredYears
         then "Available" else "Not Available") ∧
      (maleSampleRow.availability = "Available" ∨
        maleSampleRow.availability = "Not Available") :=
  ⟨by decide,
   c4_classifier [("I", 1)] maleSampleRecords (some "I") maleSampleRow (by decide)⟩

/-- Two records of indicator I split by Sex into the partitions Female and
Male. -/
def c6SampleRecords : List Record :=
  [mkRecord (some "I") (some "1") (some "Male"),
   mkRecord (some "I") (some "2") (some "Female")]

/-- C6: the set of active dimensions of an indicator is a function of the
indicator's full record subset, computed before partitioning; every emitted
row of the indicator carries a grouping entry for a dimension exactly when
that once-computed set contains it, so any two rows of the indicator agree. -/
theorem c6_active_dims_once (criteria : List (String × Nat)) (records : List Record)
    (name : Option String) (rowA rowB : ResultRow) (c : DimName)
    (hA : rowA ∈ indicatorRows criteria records name)
    (hB : rowB ∈ indicatorRows criteria records name) :
    ((lookupDim rowA.dims c).isSome = true ↔
      c ∈ valid_disaggregation_cols (df_indicator records name)) ∧
    (lookupDim rowA.dims c).isSome = (lookupDim rowB.dims c).isSome := by
  have key : ∀ {row : ResultRow}, row ∈ indicatorRows criteria records name →
      ((lookupDim row.dims c).isSome = true ↔
        c ∈ valid_disaggregation_cols (df_indicator records name)) := by
    intro row h
    rcases mem_indicatorRows.mp h with ⟨k, hk, rfl⟩
    have hlen : (valid_disaggregation_cols (df_indicator records name)).length =
        k.length := (length_of_mem_groupKeys hk).symm
    exact lookupDim_zip_isSome hlen
  refine ⟨key hA, ?_⟩
  rw [Bool.eq_iff_iff]
  exact (key hA).trans (key hB).symm

/-- The row the engine emits for the Female partition of `c6SampleRecords`. -/
def c6RowFemale : ResultRow :=
  { indicator := some "I", requiredYears := none, validYearsCount := 1,
    availability := "Not Available", dims := [(DimName.Sex, "Female")] }

/-- The row the engine emits for the Male partition of `c6SampleRecords`. -/
def c6RowMale : ResultRow :=
  { indicator := some "I", requiredYears := none, validYearsCount := 1,
    availability := "Not Available", dims := [(DimName.Sex, "Male")] }

/-- Witness for C6: the Female and Male rows of the concrete two-partition
indicator agree that Sex carries a grouping entry. -/
theorem c6_active_dims_once_witness :
    c6RowFemale ∈ indicatorRows [] c6SampleRecords (some "I") ∧
    c6RowMale ∈ indicatorRows [] c6SampleRecords (some "I") ∧
    (((lookupDim c6RowFemale.dims DimName.Sex).isSome = true ↔
        DimName.Sex ∈ valid_disaggregation_cols
          (df_indicator c6SampleRecords (some "I"))) ∧
      (lookupDim c6RowFemale.dims DimName.Sex).isSome =
        (lookupDim c6RowMale.dims DimName.Sex).isSome) :=
  ⟨by decide, by decide,
   c6_active_dims_once [] c6SampleRecords (some "I") c6RowFemale c6RowMale
     DimName.Sex (by decide) (by decide)⟩

/-- C7: every emitted row carries an entry for every dimension of the fixed
set (the field exists by construction for all five names): an active
dimension of the row's indicator renders the partition's concrete grouping
value, an inactive one renders the sentinel text meaning not disaggregated,
whatever nulls or Not applicable values the records hold. -/
theorem c7_uniform_schema (criteria : List (String × Nat)) (records : List Record)
    (row : ResultRow) (c : DimName)
    (h : row ∈ availability_results criteria records) :
    (c ∈ valid_disaggregation_cols (df_indicator records row.indicator) →
      ∃ v, lookupDim row.dims c = some v ∧ row.dimVal c = v) ∧
    (c ∉ valid_disaggregation_cols (df_indicator records row.indicator) →
      row.dimVal c = "N/A (Not Disaggregated)") := by
  rcases mem_availability_results.mp h with ⟨name, _, hmem⟩
  rcases mem_indicatorRows.mp hmem with ⟨k, hk, rfl⟩
  have hind : (result_row criteria name
      (valid_disaggregation_cols (df_indicator records name)) k
      (groupRows (valid_disaggregation_cols (df_indicator records name))
        (df_indicator records name) k)).indicator = name := rfl
  rw [hind]
  have hlen : (valid_disaggregation_cols (df_indicator records name)).length =
      k.length := (length_of_mem_groupKeys hk).symm
  constructor
  · intro hc
    have hsome : (lookupDim ((valid_disaggregation_cols
        (df_indicator records name)).zip k) c).isSome = true :=
      (lookupDim_zip_isSome hlen).mpr hc
    rcases Option.isSome_iff_exists.mp hsome with ⟨v, hv⟩
    refine ⟨v, hv, ?_⟩
    show (lookupDim ((valid_disaggregation_cols
      (df_indicator records name)).zip k) c).getD "N/A (Not Disaggregated)" = v
    rw [hv]
    rfl
  · intro hc
    have hnone : lookupDim ((valid_disaggregation_cols
        (df_indicator records name)).zip k) c = none :=
      Option.not_isSome_iff_eq_none.mp
        (fun hs => hc ((lookupDim_zip_isSome hlen).mp hs))
    show (lookupDim ((valid_disaggregation_cols
      (df_indicator records name)).zip k) c).getD "N/A (Not Disaggregated)" =
        "N/A (Not Disaggregated)"
    rw [hnone]
    rfl

/-- Witness for C7: in the concrete Sex-partitioned indicator, the Male row
renders the grouping value on the active Sex column and the sentinel on the
inactive Area column. -/
theorem c7_uniform_schema_witness :
    maleSampleRow ∈ availability_results [("I", 1)] maleSampleRecords ∧
    (∃ v, lookupDim maleSampleRow.dims DimName.Sex = some v ∧
      maleSampleRow.dimVal DimName.Sex = v) ∧
    maleSampleRow.dimVal DimName.Area = "N/A (Not Disaggregated)" :=
  ⟨by decide,
   (c7_uniform_schema [("I", 1)] maleSampleRecords maleSampleRow DimName.Sex
     (by decide)).1 (by decide),
   (c7_uniform_schema [("I", 1)] maleSampleRecords maleSampleRow DimName.Area
     (by decide)).2 (by decide)⟩

/-- C8: the engine is a pure deterministic function of the criteria table and
the record list; equal inputs give equal output row sequences, in the same
order, with no other state involved. -/
theorem c8_deterministic (criteriaA criteriaB : List (String × Nat))
    (recordsA recordsB : List Record)
    (hc : criteriaA = criteriaB) (hr : recordsA = recordsB) :
    availability_results criteriaA recordsA =
      availability_results criteriaB recordsB := by
  rw [hc, hr]

/-- Witness for C8: two runs on the same concrete input coincide. -/
theorem c8_deterministic_witness :
    availability_results [("I", 1)] [mkRecord (some "I") (some "3") none] =
      availability_results [("I", 1)] [mkRecord (some "I") (some "3") none] :=
  c8_deterministic [("I", 1)] [("I", 1)]
    [mkRecord (some "I") (some "3") none] [mkRecord (some "I") (some "3") none]
    rfl rfl

/-- Indicator X appears first and last, indicator Y in the middle; the Sex
values of X appear in the order b then a. -/
def c9SampleRecords : List Record :=
  [mkRecord (some "X") (some "1") (some "b"),
   mkRecord (some "Y") (some "2") none,
   mkRecord (some "X") (some "3") (some "a")]

/-- C9: the output concatenates the per-indicator blocks in first-appearance
order of the Indicator column, and inside one indicator the partitions come
out in ascending lexicographic order of their grouping keys, not in
first-appearance order: on the concrete input the keys b, a are emitted as
a, b. -/
theorem c9_output_order (criteria : List (String × Nat)) (records : List Record) :
    (availability_results criteria records =
      (unique_indicators records).flatMap (indicatorRows criteria records)) ∧
    (∀ name : Option String,
      List.Chain' (fun kA kB => keyLe kA kB = true)
        (groupKeys (valid_disaggregation_cols (df_indicator records name))
          (df_indicator records name))) ∧
    unique_indicators c9SampleRecords = [some "X", some "Y"] ∧
    groupKeys (valid_disaggregation_cols (df_indicator c9SampleRecords (some "X")))
        (df_indicator c9SampleRecords (some "X")) = [["a"], ["b"]] ∧
    (df_indicator c9SampleRecords (some "X")).map (fun r => astypeStr r.sex) =
      ["b", "a"] :=
  ⟨rfl, fun _ => chain'_sortLe keyLe_total _, by decide, by decide, by decide⟩

/-- C10: a record with a null Indicator contributes the null name to the
unique-indicator list, but the equality filter matches no record for null
(NaN compares unequal to NaN), so that iteration emits nothing and no error
arises; null-indicator records reach no partition of any indicator, since
every filtered record has a non-null Indicator. -/
theorem c10_null_indicator (criteria : List (String × Nat)) (records : List Record) :
    ((∃ r ∈ records, r.indicator = none) → none ∈ unique_indicators records) ∧
    df_indicator records none = [] ∧
    indicatorRows criteria records none = [] ∧
    (∀ (name : Option String) (r : Record), r ∈ df_indicator records name →
      r.indicator ≠ none) := by
  have hfilter : df_indicator records none = [] := by
    rw [df_indicator, List.filter_eq_nil_iff]
    intro r _
    cases r.indicator <;> simp [pandas_eq]
  refine ⟨?_, hfilter, ?_, ?_⟩
  · rintro ⟨r, hr, hnone⟩
    rw [unique_indicators, mem_dedupFirst]
    exact List.mem_map.mpr ⟨r, hr, hnone⟩
  · show (groupKeys (valid_disaggregation_cols (df_indicator records none))
      (df_indicator records none)).map _ = []
    rw [hfilter]
    rfl
  · intro name r hr hnone
    have hp := (List.mem_filter.mp hr).2
    rw [hnone] at hp
    cases name <;> simp [pandas_eq] at hp

/-- Witness for C10: a concrete mixed input where the null-indicator record is
listed among the unique indicators yet emits no rows, while a well-named
record passes the filter with a non-null Indicator. -/
theorem c10_null_indicator_witness :
    none ∈ unique_indicators
      [mkRecord none (some "1") none, mkRecord (some "I") (some "2") none] ∧
    indicatorRows []
      [mkRecord none (some "1") none, mkRecord (some "I") (some "2") none]
      none = [] ∧
    (mkRecord (some "I") (some "2") none).indicator ≠ none :=
  ⟨(c10_null_indicator []
      [mkRecord none (some "1") none, mkRecord (some "I") (some "2") none]).1
      ⟨mkRecord none (some "1") none, by decide, rfl⟩,
   (c10_null_indicator []
      [mkRecord none (some "1") none, mkRecord (some "I") (some "2") none]).2.2.1,
   (c10_null_indicator []
      [mkRecord none (some "1") none, mkRecord (some "I") (some "2") none]).2.2.2
      (some "I") (mkRecord (some "I") (some "2") none) (by decide)⟩

end DataAvailability
